import Mathlib

/-!
Verification of the `Bitmap` resource wrapper and its builder
(`src/native-windows-gui/src/resources/bitmap.rs`).

The external platform helpers (`rh::build_image`, `rh::build_oem_image`,
`rh::bitmap_from_memory`, `rh::make_bitmap_transparent`) live outside the
sources at hand, so they are modelled as an arbitrary record of fallible
functions (`ResourceHelpers`), letting every theorem quantify over all
possible loader outcomes.  Release calls into the platform
(`DeleteObject`) are made observable as an explicit list of released
handles.
-/

namespace Nwg

/-- A raw native handle (`HANDLE`, a raw pointer); `0` is the null pointer. -/
abbrev HANDLE := Nat

/-- `winapi::um::winuser::IMAGE_BITMAP` (the constant is 0). -/
def IMAGE_BITMAP : Nat := 0

/-- Modelled from the spec: the library error type `NwgError` is not among
the sources; §7 gives the taxonomy ConfigurationError / LoadError /
TransformError, and the code builds the first via
`NwgError::resource_create(msg)`. -/
inductive NwgError where
  | resource_create (msg : String)
  | loadError (msg : String)
  | transformError (msg : String)

deriving instance DecidableEq for NwgError

/-- Modelled from the spec: `OemBitmap` is not among the sources; glossary:
a stock resource is "identified by an enumerated id". -/
structure OemBitmap where
  id : Nat

deriving instance DecidableEq for OemBitmap

/-- Modelled from the spec: `OemImage` is not among the sources; only its
`Bitmap` variant is exercised by this code (`OemImage::Bitmap(src)`). -/
inductive OemImage where
  | Bitmap (b : OemBitmap)

deriving instance DecidableEq for OemImage

/-- `pub struct Bitmap { pub handle: HANDLE, pub(crate) owned: bool }` -/
structure Bitmap where
  handle : HANDLE
  owned : Bool

deriving instance DecidableEq for Bitmap

/-- `pub struct BitmapBuilder<'a>` with its six configuration fields.
Byte slices `&[u8]` become `List Nat`, `[u8; 3]` becomes a triple. -/
structure BitmapBuilder where
  source_text : Option String
  source_bin : Option (List Nat)
  source_system : Option OemBitmap
  transparency_key : Option (Nat × Nat × Nat)
  size : Option (Nat × Nat)
  strict : Bool

deriving instance DecidableEq for BitmapBuilder

/-- The external platform helpers (`crate::win32::resources_helper`),
abstract: each is an arbitrary function returning `Result<HANDLE, NwgError>`.
`build_image` stands for either `rh::build_image` or
`rh::build_image_decoder` (both are called with the same arguments;
which one is compiled in depends on the `image-decoder` feature). -/
structure ResourceHelpers where
  build_image : String → Option (Nat × Nat) → Bool → Nat → Except NwgError HANDLE
  build_oem_image : OemImage → Option (Nat × Nat) → Except NwgError HANDLE
  bitmap_from_memory : List Nat → Except NwgError HANDLE
  make_bitmap_transparent : HANDLE → Int × Int → (Nat × Nat × Nat) → Except NwgError HANDLE

/-- `Bitmap::builder()`: fresh configuration, everything unset, `strict: false`. -/
def Bitmap.builder : BitmapBuilder :=
  { source_text := none
    source_bin := none
    source_system := none
    transparency_key := none
    size := none
    strict := false }

/-- `BitmapBuilder::source_file` — sets `source_text`. -/
def BitmapBuilder.source_file (self : BitmapBuilder) (t : Option String) : BitmapBuilder :=
  { self with source_text := t }

/-- `BitmapBuilder::source_bin` (renamed `set_source_bin`: Lean reserves the
field name) — sets `source_bin`. -/
def BitmapBuilder.set_source_bin (self : BitmapBuilder) (t : Option (List Nat)) : BitmapBuilder :=
  { self with source_bin := t }

/-- `BitmapBuilder::source_system` (renamed `set_source_system`: Lean
reserves the field name) — sets `source_system`. -/
def BitmapBuilder.set_source_system (self : BitmapBuilder) (t : Option OemBitmap) : BitmapBuilder :=
  { self with source_system := t }

/-- `BitmapBuilder::size` (renamed `set_size`: Lean reserves the field
name) — sets `size`. -/
def BitmapBuilder.set_size (self : BitmapBuilder) (s : Option (Nat × Nat)) : BitmapBuilder :=
  { self with size := s }

/-- `BitmapBuilder::strict` (renamed `set_strict`: Lean reserves the field
name) — sets `strict`. -/
def BitmapBuilder.set_strict (self : BitmapBuilder) (s : Bool) : BitmapBuilder :=
  { self with strict := s }

/-- `BitmapBuilder::transparency_key` (renamed `set_transparency_key`:
Lean reserves the field name) — sets `transparency_key`. -/
def BitmapBuilder.set_transparency_key (self : BitmapBuilder) (k : Option (Nat × Nat × Nat)) :
    BitmapBuilder :=
  { self with transparency_key := k }

/-- The `x as i32` cast of a `u32` value: reduce mod 2^32, reinterpret as
a signed 32-bit integer. -/
def u32_as_i32 (x : Nat) : Int :=
  if x % 2 ^ 32 < 2 ^ 31 then ((x % 2 ^ 32 : Nat) : Int)
  else ((x % 2 ^ 32 : Nat) : Int) - 2 ^ 32

/-- The source-selection `if let` chain at the top of `BitmapBuilder::build`:
`source_text` first, then `source_system`, then `source_bin`; `none` when
no source is set. -/
def selectSource (rh : ResourceHelpers) (self : BitmapBuilder) :
    Option (Except NwgError HANDLE) :=
  match self.source_text with
  | some src => some (rh.build_image src self.size self.strict IMAGE_BITMAP)
  | none =>
    match self.source_system with
    | some src => some (rh.build_oem_image (OemImage.Bitmap src) self.size)
    | none =>
      match self.source_bin with
      | some src => some (rh.bitmap_from_memory src)
      | none => none

/-- The `match self.size` computing the size argument of
`rh::make_bitmap_transparent`: `Some((x, y)) => (x as i32, y as i32)`,
`None => (0, 0)`. -/
def transparencySize : Option (Nat × Nat) → Int × Int
  | some (x, y) => (u32_as_i32 x, u32_as_i32 y)
  | none => (0, 0)

/-- The `if let Some(key) = self.transparency_key` block of `build`:
when a key is set, `handle?` propagates a loader error, otherwise the
handle is passed to `rh::make_bitmap_transparent`; with no key the loader
result is kept as-is. -/
def applyTransparency (rh : ResourceHelpers) (self : BitmapBuilder)
    (handle : Except NwgError HANDLE) : Except NwgError HANDLE :=
  match self.transparency_key with
  | some key =>
    match handle with
    | Except.error e => Except.error e
    | Except.ok h => rh.make_bitmap_transparent h (transparencySize self.size) key
  | none => handle

/-- `impl Drop for Bitmap`: the list of handles passed to `DeleteObject` —
`[self.handle]` when `self.owned`, nothing otherwise. -/
def Bitmap.drop (self : Bitmap) : List HANDLE :=
  if self.owned then [self.handle] else []

/-- The tail of `build`: `*b = Bitmap { handle: handle?, owned: true };
Ok(())`.  The `?` propagates an error without touching `b`; on `Ok` the
assignment overwrites `b` (Rust drops the previous value of `*b`, which is
the only place `build` can release a handle). -/
def storeResult (b : Bitmap) (handle : Except NwgError HANDLE) :
    Except NwgError Unit × Bitmap × List HANDLE :=
  match handle with
  | Except.error e => (Except.error e, b, [])
  | Except.ok h => (Except.ok (), { handle := h, owned := true }, Bitmap.drop b)

/-- `BitmapBuilder::build(self, b: &mut Bitmap)`.  Returns the function
result, the final value of `*b`, and the list of handles released
(passed to `DeleteObject`) during the call. -/
def BitmapBuilder.build (rh : ResourceHelpers) (self : BitmapBuilder) (b : Bitmap) :
    Except NwgError Unit × Bitmap × List HANDLE :=
  match selectSource rh self with
  | none => (Except.error (NwgError.resource_create "No source provided for Bitmap"), b, [])
  | some handle => storeResult b (applyTransparency rh self handle)

/-- `impl Default for Bitmap`: null handle, not owned. -/
def Bitmap.default : Bitmap :=
  { handle := 0, owned := false }

/-- `impl PartialEq for Bitmap`: `self.handle == other.handle`. -/
def Bitmap.beq (self other : Bitmap) : Bool :=
  self.handle == other.handle

/- Concrete helper instances used by the witnesses. -/

/-- Helpers where every call succeeds with a distinctive handle. -/
def rhOk : ResourceHelpers :=
  { build_image := fun _ _ _ _ => Except.ok 7
    build_oem_image := fun _ _ => Except.ok 8
    bitmap_from_memory := fun _ => Except.ok 9
    make_bitmap_transparent := fun h _ _ => Except.ok (h + 100) }

/-- Helpers where every loader fails. -/
def rhFail : ResourceHelpers :=
  { build_image := fun _ _ _ _ => Except.error (NwgError.loadError "img")
    build_oem_image := fun _ _ => Except.error (NwgError.loadError "oem")
    bitmap_from_memory := fun _ => Except.error (NwgError.loadError "mem")
    make_bitmap_transparent := fun _ _ _ => Except.error (NwgError.transformError "mask") }

/-- Helpers where loaders succeed but the transparency step fails. -/
def rhTransFail : ResourceHelpers :=
  { build_image := fun _ _ _ _ => Except.ok 7
    build_oem_image := fun _ _ => Except.ok 8
    bitmap_from_memory := fun _ => Except.ok 9
    make_bitmap_transparent := fun _ _ _ => Except.error (NwgError.transformError "mask") }

/--
C1. For every builder configuration in which no source is selected
(`source_file`, `source_system` and `source_bin` all unset), `build`
returns the configuration error "No source provided for Bitmap" and the
target wrapper is returned completely unchanged (same handle, same owned
flag), with no release call issued.
-/
theorem build_no_source (rh : ResourceHelpers) (self : BitmapBuilder) (b : Bitmap)
    (h1 : self.source_text = none) (h2 : self.source_system = none)
    (h3 : self.source_bin = none) :
    self.build rh b =
      (Except.error (NwgError.resource_create "No source provided for Bitmap"), b, []) := by
  simp [BitmapBuilder.build, selectSource, h1, h2, h3]

/-- Witness for C1: the fresh builder has no source, and `build` on it
leaves a concrete target untouched while reporting the configuration
error. -/
theorem build_no_source_witness :
    BitmapBuilder.build rhOk Bitmap.builder { handle := 5, owned := true } =
      (Except.error (NwgError.resource_create "No source provided for Bitmap"),
        { handle := 5, owned := true }, []) :=
  build_no_source rhOk Bitmap.builder { handle := 5, owned := true } rfl rfl rfl

/-- A builder configured with only a file source. -/
def cfgFile : BitmapBuilder :=
  Bitmap.builder.source_file (some "hello.bmp")

/-- A builder with both a file source and a system stock source set. -/
def cfgFileAndStock : BitmapBuilder :=
  (Bitmap.builder.source_file (some "hello.bmp")).set_source_system (some { id := 2 })

/-- A builder configured with only a system stock source. -/
def cfgStock : BitmapBuilder :=
  Bitmap.builder.set_source_system (some { id := 3 })

/-- A builder with a file source and a transparency key. -/
def cfgTrans : BitmapBuilder :=
  (Bitmap.builder.source_file (some "hello.bmp")).set_transparency_key (some (255, 0, 255))

/--
C2. For every builder configuration, every outcome of the external loaders
and of the transparency step, and every target, whenever `build` returns
an error — no source selected, loader failure, or transparency-step
failure — the target wrapper is returned completely unchanged and no
release call is made: the overwrite of the target happens only after
every fallible step has succeeded.
-/
theorem build_error_target_unchanged (rh : ResourceHelpers) (self : BitmapBuilder)
    (b : Bitmap) (e : NwgError) (h : (self.build rh b).1 = Except.error e) :
    (self.build rh b).2.1 = b ∧ (self.build rh b).2.2 = [] := by
  unfold BitmapBuilder.build at h ⊢
  cases hs : selectSource rh self with
  | none => simp [hs]
  | some hd =>
    simp only [hs] at h ⊢
    cases ht : applyTransparency rh self hd with
    | error e2 => simp [storeResult, ht]
    | ok h2 => simp [storeResult, ht] at h

/-- Witness for C2: with failing loaders, `build` on a file-source
configuration leaves a concrete target untouched and releases nothing. -/
theorem build_error_target_unchanged_witness :
    (BitmapBuilder.build rhFail cfgFile { handle := 5, owned := true }).2.1 =
        { handle := 5, owned := true } ∧
      (BitmapBuilder.build rhFail cfgFile { handle := 5, owned := true }).2.2 = [] :=
  build_error_target_unchanged rhFail cfgFile { handle := 5, owned := true }
    (NwgError.loadError "img") rfl

/--
C3. `build` resolves the source by the fixed priority order: the file
source is used whenever it is set (regardless of the other sources — in
particular with both a file and a system stock source set, the file
source is loaded), otherwise the system stock source if set, otherwise
the in-memory bytes source.
-/
theorem build_source_priority (rh : ResourceHelpers) (self : BitmapBuilder) (b : Bitmap) :
    (∀ s, self.source_text = some s →
      self.build rh b = storeResult b (applyTransparency rh self
        (rh.build_image s self.size self.strict IMAGE_BITMAP)))
  ∧ (∀ s, self.source_text = none → self.source_system = some s →
      self.build rh b = storeResult b (applyTransparency rh self
        (rh.build_oem_image (OemImage.Bitmap s) self.size)))
  ∧ (∀ s, self.source_text = none → self.source_system = none → self.source_bin = some s →
      self.build rh b = storeResult b (applyTransparency rh self (rh.bitmap_from_memory s))) := by
  refine ⟨?_, ?_, ?_⟩ <;> intros <;> simp_all [BitmapBuilder.build, selectSource]

/-- Witness for C3: a configuration with both a file source and a stock
source set resolves through the file loader. -/
theorem build_source_priority_witness :
    BitmapBuilder.build rhOk cfgFileAndStock Bitmap.default =
      storeResult Bitmap.default (applyTransparency rhOk cfgFileAndStock
        (rhOk.build_image "hello.bmp" cfgFileAndStock.size cfgFileAndStock.strict
          IMAGE_BITMAP)) :=
  (build_source_priority rhOk cfgFileAndStock Bitmap.default).1 "hello.bmp" rfl

/--
C4. Whenever `build` succeeds, the target wrapper's handle has been
overwritten with the newly produced handle (the output of the selected
loader after the optional transparency step) and its owned flag is set to
true; this holds for all three source kinds, system stock sources
included.
-/
theorem build_success_owned (rh : ResourceHelpers) (self : BitmapBuilder) (b : Bitmap)
    (h : (self.build rh b).1 = Except.ok ()) :
    (self.build rh b).2.1.owned = true ∧
      ∃ h0, selectSource rh self = some h0 ∧
        applyTransparency rh self h0 = Except.ok (self.build rh b).2.1.handle := by
  unfold BitmapBuilder.build at h ⊢
  cases hs : selectSource rh self with
  | none => simp [hs] at h
  | some hd =>
    simp only [hs] at h ⊢
    cases ht : applyTransparency rh self hd with
    | error e2 => simp [storeResult, ht] at h
    | ok h2 => exact ⟨by simp [storeResult, ht], hd, rfl, by simp [storeResult, ht]⟩

/-- Witness for C4: a successful build from a system stock source stores
the produced handle and sets `owned := true` on the target. -/
theorem build_success_owned_witness :
    (BitmapBuilder.build rhOk cfgStock Bitmap.default).2.1.owned = true ∧
      ∃ h0, selectSource rhOk cfgStock = some h0 ∧
        applyTransparency rhOk cfgStock h0 =
          Except.ok (BitmapBuilder.build rhOk cfgStock Bitmap.default).2.1.handle :=
  build_success_owned rhOk cfgStock Bitmap.default rfl

/--
C5. `default()` always succeeds, producing a wrapper with the null handle
and `owned = false`, and dropping it performs no release call.
-/
theorem default_null_unowned :
    Bitmap.default.handle = 0 ∧ Bitmap.default.owned = false ∧
      Bitmap.drop Bitmap.default = [] :=
  ⟨rfl, rfl, rfl⟩

/--
C6. Two wrappers compare equal iff their raw handle values are identical;
the comparison ignores the owned flag and the equality is an equivalence
relation (reflexive, symmetric, transitive) determined solely by the
handle value.
-/
theorem bitmap_eq_iff_handle (a b : Bitmap) :
    (Bitmap.beq a b = true ↔ a.handle = b.handle)
  ∧ (∀ o o2 : Bool, Bitmap.beq { a with owned := o } { b with owned := o2 } = Bitmap.beq a b)
  ∧ Bitmap.beq a a = true
  ∧ Bitmap.beq a b = Bitmap.beq b a
  ∧ (∀ c, Bitmap.beq a b = true → Bitmap.beq b c = true → Bitmap.beq a c = true) := by
  refine ⟨by simp [Bitmap.beq], fun o o2 => rfl, by simp [Bitmap.beq], ?_, ?_⟩
  · by_cases h : a.handle = b.handle
    · simp [Bitmap.beq, h]
    · simp [Bitmap.beq, h, Ne.symm h]
  · intro c hab hbc
    simp only [Bitmap.beq, beq_iff_eq] at hab hbc ⊢
    exact hab.trans hbc

/-- Witness for C6: transitivity applied at concrete wrappers whose owned
flags differ but whose handles agree. -/
theorem bitmap_eq_iff_handle_witness :
    Bitmap.beq { handle := 4, owned := true } { handle := 4, owned := true } = true :=
  (bitmap_eq_iff_handle { handle := 4, owned := true }
      { handle := 4, owned := false }).2.2.2.2
    { handle := 4, owned := true } rfl rfl

/--
C7. Each builder setter (`source_file`, `source_bin`, `source_system`,
`size`, `transparency_key`, `strict`) is a pure function from
configuration to configuration: it updates exactly its own field to the
given argument and leaves every other field unchanged, for every starting
configuration and every argument.
-/
theorem setters_frame (self : BitmapBuilder) (t : Option String) (bin : Option (List Nat))
    (sys : Option OemBitmap) (sz : Option (Nat × Nat)) (st : Bool)
    (k : Option (Nat × Nat × Nat)) :
    ((self.source_file t).source_text = t
      ∧ (self.source_file t).source_bin = self.source_bin
      ∧ (self.source_file t).source_system = self.source_system
      ∧ (self.source_file t).transparency_key = self.transparency_key
      ∧ (self.source_file t).size = self.size
      ∧ (self.source_file t).strict = self.strict)
  ∧ ((self.set_source_bin bin).source_text = self.source_text
      ∧ (self.set_source_bin bin).source_bin = bin
      ∧ (self.set_source_bin bin).source_system = self.source_system
      ∧ (self.set_source_bin bin).transparency_key = self.transparency_key
      ∧ (self.set_source_bin bin).size = self.size
      ∧ (self.set_source_bin bin).strict = self.strict)
  ∧ ((self.set_source_system sys).source_text = self.source_text
      ∧ (self.set_source_system sys).source_bin = self.source_bin
      ∧ (self.set_source_system sys).source_system = sys
      ∧ (self.set_source_system sys).transparency_key = self.transparency_key
      ∧ (self.set_source_system sys).size = self.size
      ∧ (self.set_source_system sys).strict = self.strict)
  ∧ ((self.set_size sz).source_text = self.source_text
      ∧ (self.set_size sz).source_bin = self.source_bin
      ∧ (self.set_size sz).source_system = self.source_system
      ∧ (self.set_size sz).transparency_key = self.transparency_key
      ∧ (self.set_size sz).size = sz
      ∧ (self.set_size sz).strict = self.strict)
  ∧ ((self.set_transparency_key k).source_text = self.source_text
      ∧ (self.set_transparency_key k).source_bin = self.source_bin
      ∧ (self.set_transparency_key k).source_system = self.source_system
      ∧ (self.set_transparency_key k).transparency_key = k
      ∧ (self.set_transparency_key k).size = self.size
      ∧ (self.set_transparency_key k).strict = self.strict)
  ∧ ((self.set_strict st).source_text = self.source_text
      ∧ (self.set_strict st).source_bin = self.source_bin
      ∧ (self.set_strict st).source_system = self.source_system
      ∧ (self.set_strict st).transparency_key = self.transparency_key
      ∧ (self.set_strict st).size = self.size
      ∧ (self.set_strict st).strict = st) :=
  ⟨⟨rfl, rfl, rfl, rfl, rfl, rfl⟩, ⟨rfl, rfl, rfl, rfl, rfl, rfl⟩,
    ⟨rfl, rfl, rfl, rfl, rfl, rfl⟩, ⟨rfl, rfl, rfl, rfl, rfl, rfl⟩,
    ⟨rfl, rfl, rfl, rfl, rfl, rfl⟩, ⟨rfl, rfl, rfl, rfl, rfl, rfl⟩⟩

/--
C8. Destruction never invokes the platform release call when `owned` is
false, and invokes it exactly once on the wrapper's handle when `owned`
is true; a single teardown never releases the same owned handle more than
once (the release list has length at most one).
-/
theorem drop_release_calls (bm : Bitmap) :
    (bm.owned = false → Bitmap.drop bm = [])
  ∧ (bm.owned = true → Bitmap.drop bm = [bm.handle])
  ∧ (Bitmap.drop bm).length ≤ 1
  ∧ (bm.owned = true → (Bitmap.drop bm).count bm.handle = 1) := by
  cases h : bm.owned <;> simp [Bitmap.drop, h]

/-- Witness for C8: an owned wrapper releases its handle exactly once, an
unowned one not at all. -/
theorem drop_release_calls_witness :
    Bitmap.drop { handle := 6, owned := true } = [6] ∧
      Bitmap.drop { handle := 6, owned := false } = [] :=
  ⟨(drop_release_calls { handle := 6, owned := true }).2.1 rfl,
    (drop_release_calls { handle := 6, owned := false }).1 rfl⟩

/--
C9. With a transparency key set, when the chosen loader succeeds with
handle `h0` and the transparency step succeeds with handle `hT`, the
target wrapper stores `hT` (the transparency step's new handle, not the
loader's) with `owned := true`; the size passed to the transparency step
is the configured size (cast to i32 components), or `(0, 0)` meaning
native size when the size is unset.
-/
theorem build_transparency_new_handle (rh : ResourceHelpers) (self : BitmapBuilder)
    (b : Bitmap) (key : Nat × Nat × Nat) (h0 hT : HANDLE)
    (hk : self.transparency_key = some key)
    (hsel : selectSource rh self = some (Except.ok h0))
    (ht : rh.make_bitmap_transparent h0 (transparencySize self.size) key = Except.ok hT) :
    (self.build rh b).2.1 = { handle := hT, owned := true }
  ∧ applyTransparency rh self (Except.ok h0) =
      rh.make_bitmap_transparent h0 (transparencySize self.size) key
  ∧ (∀ x y, self.size = some (x, y) → transparencySize self.size = (u32_as_i32 x, u32_as_i32 y))
  ∧ (self.size = none → transparencySize self.size = (0, 0)) := by
  refine ⟨?_, ?_, ?_, ?_⟩
  · simp [BitmapBuilder.build, hsel, applyTransparency, hk, ht, storeResult]
  · simp [applyTransparency, hk]
  · intro x y hxy; simp [transparencySize, hxy]
  · intro hn; simp [transparencySize, hn]

/-- Witness for C9: a concrete file-source build with a transparency key
stores the transparency step's handle 107, not the loader's handle 7. -/
theorem build_transparency_new_handle_witness :
    (BitmapBuilder.build rhOk cfgTrans Bitmap.default).2.1 = { handle := 107, owned := true }
  ∧ applyTransparency rhOk cfgTrans (Except.ok 7) =
      rhOk.make_bitmap_transparent 7 (transparencySize cfgTrans.size) (255, 0, 255)
  ∧ (∀ x y, cfgTrans.size = some (x, y) →
      transparencySize cfgTrans.size = (u32_as_i32 x, u32_as_i32 y))
  ∧ (cfgTrans.size = none → transparencySize cfgTrans.size = (0, 0)) :=
  build_transparency_new_handle rhOk cfgTrans Bitmap.default (255, 0, 255) 7 107 rfl rfl rfl

/--
C10. With a transparency key set, if the load step succeeds with handle
`h0` but the transparency step fails, `build` returns the transparency
error, the target is untouched, and no release call is made at all — in
particular the intermediate handle `h0` is never released (it leaks).
-/
theorem build_transparency_leak (rh : ResourceHelpers) (self : BitmapBuilder) (b : Bitmap)
    (key : Nat × Nat × Nat) (h0 : HANDLE) (e : NwgError)
    (hk : self.transparency_key = some key)
    (hsel : selectSource rh self = some (Except.ok h0))
    (ht : rh.make_bitmap_transparent h0 (transparencySize self.size) key = Except.error e) :
    self.build rh b = (Except.error e, b, []) ∧ h0 ∉ (self.build rh b).2.2 := by
  have hb : self.build rh b = (Except.error e, b, []) := by
    simp [BitmapBuilder.build, hsel, applyTransparency, hk, ht, storeResult]
  exact ⟨hb, by simp [hb]⟩

/-- Witness for C10: loader succeeds with handle 7, transparency fails;
the build reports the transform error and handle 7 is never released. -/
theorem build_transparency_leak_witness :
    BitmapBuilder.build rhTransFail cfgTrans Bitmap.default =
        (Except.error (NwgError.transformError "mask"), Bitmap.default, [])
  ∧ 7 ∉ (BitmapBuilder.build rhTransFail cfgTrans Bitmap.default).2.2 :=
  build_transparency_leak rhTransFail cfgTrans Bitmap.default (255, 0, 255) 7
    (NwgError.transformError "mask") rfl rfl rfl

end Nwg
